import Mathlib

/-!
Verification of the telemetry core of `iiot_system.py` (Machine-Monitoring-System).

The file shallowly embeds the Durable Log (`db_init`, `db_insert`, `db_latest`,
SQLite-backed), the Ingestor callback (`on_message`) and the Live Mirror poll
tick of `run_opcua_server`.  Python/SQLite conventions modelled here:

* JSON values decoded by `json.loads` are modelled by `JVal`; JSON numbers are
  finite decimals and are represented exactly as rationals (IEEE-754 rounding
  of the reader is abstracted away; none of the properties below depend on it).
* Python `float(x)` is modelled by `pyFloat`; its result type `PyNum`
  distinguishes finite values, the two infinities and NaN, because SQLite has
  no representation for NaN: a NaN bound into the database is stored as NULL,
  which the schema's NOT NULL constraints reject (`sqlite3.IntegrityError`).
* The `ts` and `sensor` columns are declared TEXT, so SQLite's TEXT affinity
  converts every non-NULL bound value to text before storing it
  (`storedText`); consequently the stored record carries strings there.
* Storage availability (whether `sqlite3.connect`/write can succeed for the
  configured path) is modelled by a boolean `avail` argument; `avail = false`
  makes each database call fail with `DBErr.storeUnavailable`, standing for
  the `sqlite3.OperationalError` the library would raise.
* Exceptions are modelled with `Except`/explicit result values: a function
  whose Python counterpart can raise returns `Except`, and a `try/except`
  block is a `match` on that result.
-/

attribute [local semireducible] Rat.add Rat.mul Rat.inv Rat.sub

deriving instance DecidableEq for Except

/-- A decoded JSON value as produced by `json.loads`.  Numbers are finite
(standard JSON has no NaN/Infinity literals); objects keep their key/value
pairs in source order. -/
inductive JVal where
  | jstr (s : String)
  | jnum (q : ℚ)
  | jbool (b : Bool)
  | jnull
  | jarr (a : List JVal)
  | jobj (o : List (String × JVal))

/-- The value class of a Python `float`: finite, signed infinity, or NaN. -/
inductive PyNum where
  | fin (q : ℚ)
  | inf (neg : Bool)
  | nan
deriving DecidableEq, Repr

/-- Python `dict` lookup on the mapping built by `json.loads`: with duplicate
keys the later pair wins, so we look the key up from the right. -/
def pyLookup (o : List (String × JVal)) (k : String) : Option JVal :=
  o.reverse.lookup k

/-- Digits of a character run (underscores removed), read as a natural. -/
def digitsVal (cs : List Char) : ℕ :=
  cs.foldl (fun a c => 10 * a + (c.toNat - 48)) 0

/-- Tail of a Python digit run: digits with single underscores strictly
between digits (`1_000` is legal, `1__0`, `_1`, `1_` are not). -/
def runTail : List Char → Bool
  | [] => true
  | '_' :: rest =>
    match rest with
    | [] => false
    | c :: rest2 => c.isDigit && runTail rest2
  | c :: rest => c.isDigit && runTail rest

/-- A nonempty Python digit run (ASCII digits; the CPython extension to
non-ASCII decimal digits is outside this model). -/
def digitRun : List Char → Bool
  | [] => false
  | c :: rest => c.isDigit && runTail rest

/-- Drop the underscore separators of a digit run. -/
def dropUnderscores (cs : List Char) : List Char :=
  cs.filter (fun c => c ≠ '_')

/-- Split a character list at every occurrence of `sep`. -/
def splitOnChar (sep : Char) : List Char → List (List Char)
  | [] => [[]]
  | c :: rest =>
    let r := splitOnChar sep rest
    if c = sep then
      [] :: r
    else
      match r with
      | h :: t => (c :: h) :: t
      | [] => [[c]]

/-- The mantissa of a Python float literal: `digits`, `digits.digits`,
`.digits` or `digits.` -/
def parseMant (cs : List Char) : Option ℚ :=
  match splitOnChar '.' cs with
  | [i] =>
    if digitRun i then some ((digitsVal (dropUnderscores i) : ℚ)) else none
  | [i, f] =>
    if (i.isEmpty || digitRun i) && (f.isEmpty || digitRun f)
        && !(i.isEmpty && f.isEmpty) then
      let fd := dropUnderscores f
      some ((digitsVal (dropUnderscores i) : ℚ)
        + (digitsVal fd : ℚ) / (10 : ℚ) ^ fd.length)
    else none
  | _ => none

/-- The exponent of a Python float literal: optional sign then a digit run;
returns the sign and the magnitude. -/
def parseExpPart (cs : List Char) : Option (Bool × ℕ) :=
  let (neg, body) : Bool × List Char :=
    match cs with
    | '-' :: r => (true, r)
    | '+' :: r => (false, r)
    | r => (false, r)
  if digitRun body then some (neg, digitsVal (dropUnderscores body)) else none

/-- An unsigned Python float literal (no sign, already lowercased):
mantissa with an optional `e`-exponent. -/
def parseNumber (cs : List Char) : Option ℚ :=
  match splitOnChar 'e' cs with
  | [m] => parseMant m
  | [m, e] =>
    match parseMant m, parseExpPart e with
    | some q, some (negE, k) =>
      some (if negE then q / (10 : ℚ) ^ k else q * (10 : ℚ) ^ k)
    | _, _ => none
  | _ => none

/-- Strip whitespace from both ends of a character list (Python `str.strip`
as `float()` applies it). -/
def trimChars (cs : List Char) : List Char :=
  ((cs.dropWhile Char.isWhitespace).reverse.dropWhile Char.isWhitespace).reverse

/-- Python `float(s)` on a string: strip whitespace, optional sign, then an
infinity/NaN word or a float literal.  (ASCII digits only; see `digitRun`.) -/
def pyFloatOfString (s : String) : Option PyNum :=
  match trimChars s.data with
  | [] => none
  | cs =>
    let (neg, body) : Bool × List Char :=
      match cs with
      | '-' :: r => (true, r)
      | '+' :: r => (false, r)
      | r => (false, r)
    let lower := body.map Char.toLower
    if lower = "inf".data ∨ lower = "infinity".data then some (.inf neg)
    else if lower = "nan".data then some .nan
    else
      match parseNumber lower with
      | some q => some (.fin (if neg then -q else q))
      | none => none

/-- Python `float(v)` on a decoded JSON value: numbers pass through, booleans
become 0.0/1.0, strings are parsed, and `None`/lists/dicts raise
(`TypeError`), modelled as `none`. -/
def pyFloat : JVal → Option PyNum
  | .jnum q => some (.fin q)
  | .jbool b => some (.fin (if b then 1 else 0))
  | .jstr s => pyFloatOfString s
  | _ => none

/-- Can `sqlite3` bind this value as a statement parameter?  Lists and dicts
cannot (`sqlite3.InterfaceError`); strings, numbers, booleans and None can. -/
def bindOk : JVal → Bool
  | .jobj _ => false
  | .jarr _ => false
  | _ => true

/-- SQLite's rendering of a numeric value stored under TEXT affinity.
Integer values render exactly; the decimal rendering of non-integer reals is
approximated (no property below ever stores a non-string `ts`/`sensor`). -/
def sqliteRealText (q : ℚ) : String :=
  if q.den = 1 then toString q.num else toString q

/-- The text actually stored when a value is bound into a TEXT-affinity
NOT NULL column: strings unchanged, numbers and booleans converted to text,
`None` rejected by the NOT NULL constraint, lists/dicts not bindable. -/
def storedText : JVal → Option String
  | .jstr s => some s
  | .jnum q => some (sqliteRealText q)
  | .jbool b => some (cond b "1" "0")
  | .jnull => none
  | .jarr _ => none
  | .jobj _ => none

/-- A stored telemetry row, minus its `id` column: exactly the four payload
fields of the `telemetry` table (`SELECT ts, sensor, temperature, humidity`).
`ts`/`sensor` are TEXT, `temperature`/`humidity` REAL. -/
structure Row where
  ts : String
  sensor : String
  temperature : PyNum
  humidity : PyNum
deriving DecidableEq, Repr

/-- The state of the SQLite database at `db_path`: whether the `telemetry`
table exists, the next AUTOINCREMENT id (starts at 1), and the stored rows
paired with their assigned ids, in insertion order. -/
structure DBState where
  schema : Bool
  nextId : ℕ
  rows : List (ℕ × Row)
deriving DecidableEq, Repr

/-- Errors raised by the sqlite3 layer. -/
inductive DBErr where
  | storeUnavailable
  | noSuchTable
  | interfaceError
  | integrityError
deriving DecidableEq, Repr

/-- `db_init`: `CREATE TABLE IF NOT EXISTS telemetry (...)` — ensures the
schema exists and touches nothing else; raises only if storage is
unavailable. -/
def db_init (avail : Bool) (db : DBState) : Except DBErr DBState :=
  if ¬ avail then .error .storeUnavailable
  else .ok { db with schema := true }

/-- `db_insert(ts, sensor, temperature, humidity)`: one INSERT in its own
connection/transaction.  The committed state is returned together with the
Python return value of the function — which is `None` (the function body has
no return statement), modelled as `(none : Option ℕ)`.  A NaN REAL binds as
NULL and violates the NOT NULL constraint. -/
def db_insert (avail : Bool) (ts sensor : JVal) (temperature humidity : PyNum)
    (db : DBState) : Except DBErr (DBState × Option ℕ) :=
  if ¬ avail then .error .storeUnavailable
  else if ¬ db.schema then .error .noSuchTable
  else if ¬ (bindOk ts ∧ bindOk sensor) then .error .interfaceError
  else
    match storedText ts, storedText sensor with
    | some a, some b =>
      if temperature = .nan ∨ humidity = .nan then .error .integrityError
      else
        .ok ({ db with
                nextId := db.nextId + 1,
                rows := db.rows ++ [(db.nextId, ⟨a, b, temperature, humidity⟩)] },
             none)
    | _, _ => .error .integrityError

/-- Insertion sort of rows by id, descending: the shallow embedding of
`ORDER BY id DESC` — insert one row into an already-sorted suffix. -/
def insertByIdDesc (p : ℕ × Row) : List (ℕ × Row) → List (ℕ × Row)
  | [] => [p]
  | q :: l => if q.1 ≤ p.1 then p :: q :: l else q :: insertByIdDesc p l

/-- Sort rows by id, descending (`ORDER BY id DESC`). -/
def sortByIdDesc : List (ℕ × Row) → List (ℕ × Row)
  | [] => []
  | p :: l => insertByIdDesc p (sortByIdDesc l)

/-- `db_latest(n)`: `SELECT ts, sensor, temperature, humidity FROM telemetry
ORDER BY id DESC LIMIT n` followed by `fetchall()`. -/
def db_latest (avail : Bool) (n : ℕ) (db : DBState) : Except DBErr (List Row) :=
  if ¬ avail then .error .storeUnavailable
  else if ¬ db.schema then .error .noSuchTable
  else .ok (((sortByIdDesc db.rows).take n).map Prod.snd)

/-- A transport delivery as seen by the subscriber callback: either the
payload fails UTF-8 decoding / JSON parsing, or it decodes to a JSON value. -/
inductive Wire where
  | undecodable
  | decoded (v : JVal)

/-- The exception classes the `on_message` body can raise: decode failure,
subscripting a non-mapping (`TypeError`), a missing key (`KeyError`), a
`float()` coercion failure (`ValueError`/`TypeError`), or a database error. -/
inductive PyExc where
  | decodeError
  | typeError
  | keyError (k : String)
  | coercionError (k : String)
  | dbExc (e : DBErr)
deriving DecidableEq, Repr

/-- The `try:` block of `on_message`: decode, look up `ts`, `sensor`,
`temperature` (then coerce), `humidity` (then coerce), insert — raising at
the first failing step, in source order. -/
def ingest_body (avail : Bool) (w : Wire) (db : DBState) : Except PyExc DBState :=
  match w with
  | .undecodable => .error .decodeError
  | .decoded (.jobj o) =>
    match pyLookup o "ts" with
    | none => .error (.keyError "ts")
    | some tsv =>
      match pyLookup o "sensor" with
      | none => .error (.keyError "sensor")
      | some sv =>
        match pyLookup o "temperature" with
        | none => .error (.keyError "temperature")
        | some tv =>
          match pyFloat tv with
          | none => .error (.coercionError "temperature")
          | some t =>
            match pyLookup o "humidity" with
            | none => .error (.keyError "humidity")
            | some hv =>
              match pyFloat hv with
              | none => .error (.coercionError "humidity")
              | some h =>
                match db_insert avail tsv sv t h db with
                | .error e => .error (.dbExc e)
                | .ok (db2, _) => .ok db2
  | .decoded _ => .error .typeError

/-- Outcome of one `on_message` call: the row was ingested, or the
`except Exception` clause caught `e`, logged it and discarded the message. -/
inductive MsgResult where
  | ingested
  | caught (e : PyExc)
deriving DecidableEq, Repr

/-- The Ingestor callback `on_message`: the whole body runs inside
`try: ... except Exception: log` — every failure is caught at this boundary,
the message is discarded and the database is left as it was. -/
def on_message (avail : Bool) (w : Wire) (db : DBState) : DBState × MsgResult :=
  match ingest_body avail w db with
  | .ok db2 => (db2, .ingested)
  | .error e => (db, .caught e)

/-- The three writable OPC UA variables of the Live Mirror, with their
initial values from `run_opcua_server`. -/
structure MirrorVars where
  temperature : PyNum
  humidity : PyNum
  sensor : String
deriving DecidableEq, Repr

/-- The initial OPC UA variable values: `Temperature = 0.0`,
`Humidity = 0.0`, `Sensor = "sensor-001"`. -/
def initVars : MirrorVars := ⟨.fin 0, .fin 0, "sensor-001"⟩

/-- One iteration of the Live Mirror poll loop in `run_opcua_server`:
`rows = db_latest(1); if rows: unpack and set the three variables`.
The loop body is NOT wrapped in a per-tick `try/except` (only
`KeyboardInterrupt` is handled, around the whole loop), so a database error
propagates out of the iteration — modelled by the `Except` result.
`float()` on a stored REAL and `str()` on a stored TEXT are identities. -/
def run_opcua_tick (avail : Bool) (db : DBState) (vars : MirrorVars) :
    Except DBErr MirrorVars :=
  match db_latest avail 1 db with
  | .error e => .error e
  | .ok [] => .ok vars
  | .ok (r :: _) => .ok ⟨r.temperature, r.humidity, r.sensor⟩

/-- An input to one `db_insert` call (the four arguments the Ingestor would
pass). -/
structure InRow where
  ts : JVal
  sensor : JVal
  temperature : PyNum
  humidity : PyNum

/-- The row `db_insert` stores for an insertable input. -/
def toRow (i : InRow) : Row :=
  ⟨(storedText i.ts).getD "", (storedText i.sensor).getD "",
   i.temperature, i.humidity⟩

/-- An input on which `db_insert` succeeds (bindable, NOT NULL satisfied,
no NaN REAL). -/
def Insertable (i : InRow) : Prop :=
  (storedText i.ts).isSome = true ∧ (storedText i.sensor).isSome = true ∧
    i.temperature ≠ PyNum.nan ∧ i.humidity ≠ PyNum.nan

instance (i : InRow) : Decidable (Insertable i) := by
  unfold Insertable; infer_instance

/-- A sequence of `db_insert` calls, stopping at the first failure. -/
def db_insertMany (avail : Bool) (db : DBState) : List InRow → Except DBErr DBState
  | [] => .ok db
  | i :: is =>
    match db_insert avail i.ts i.sensor i.temperature i.humidity db with
    | .error e => .error e
    | .ok (db2, _) => db_insertMany avail db2 is

/-- The id/row pairs a run of successful inserts appends, starting at
AUTOINCREMENT value `start`. -/
def newRows (start : ℕ) : List InRow → List (ℕ × Row)
  | [] => []
  | i :: is => (start, toRow i) :: newRows (start + 1) is

/-- Database well-formedness: ids strictly increase along insertion order and
stay below the AUTOINCREMENT counter — every state reachable from a fresh
database satisfies this. -/
def WF (db : DBState) : Prop :=
  db.rows.Pairwise (fun p q => p.1 < q.1) ∧ ∀ p ∈ db.rows, p.1 < db.nextId

instance (db : DBState) : Decidable (WF db) := by
  unfold WF; infer_instance

/-- The state `db_init` leaves behind. -/
def dbWithSchema (db : DBState) : DBState := { db with schema := true }

/-- A wire payload is malformed in the sense of the spec when the bytes do
not decode, a required key is absent, or a `temperature`/`humidity` value
cannot be coerced by `float()`. -/
def MalformedWire (w : Wire) : Prop :=
  w = .undecodable ∨
  ∃ o, w = .decoded (.jobj o) ∧
    (pyLookup o "ts" = none ∨ pyLookup o "sensor" = none ∨
     pyLookup o "temperature" = none ∨ pyLookup o "humidity" = none ∨
     (∃ tv, pyLookup o "temperature" = some tv ∧ pyFloat tv = none) ∨
     (∃ hv, pyLookup o "humidity" = some hv ∧ pyFloat hv = none))

/-! ## Helper lemmas -/

theorem storedText_bindOk {v : JVal} {a : String} (h : storedText v = some a) :
    bindOk v = true := by
  cases v <;> first | rfl | simp [storedText] at h

theorem db_insert_ok {db : DBState} {ts sensor : JVal} {a b : String}
    {t h : PyNum} (hs : db.schema = true)
    (hta : storedText ts = some a) (hsb : storedText sensor = some b)
    (htn : t ≠ PyNum.nan) (hhn : h ≠ PyNum.nan) :
    db_insert true ts sensor t h db =
      .ok ({ db with
              nextId := db.nextId + 1,
              rows := db.rows ++ [(db.nextId, ⟨a, b, t, h⟩)] }, none) := by
  simp [db_insert, hs, storedText_bindOk hta, storedText_bindOk hsb,
    hta, hsb, htn, hhn]

theorem insertByIdDesc_eq_append {p : ℕ × Row} {l : List (ℕ × Row)}
    (h : ∀ q ∈ l, p.1 < q.1) : insertByIdDesc p l = l ++ [p] := by
  induction l with
  | nil => rfl
  | cons q l ih =>
    have hq : ¬ q.1 ≤ p.1 := by
      have := h q (List.mem_cons_self q l)
      omega
    simp [insertByIdDesc, hq, ih fun r hr => h r (List.mem_cons_of_mem q hr)]

theorem sortByIdDesc_eq_reverse {l : List (ℕ × Row)}
    (h : l.Pairwise fun p q => p.1 < q.1) : sortByIdDesc l = l.reverse := by
  induction l with
  | nil => rfl
  | cons p l ih =>
    rw [List.pairwise_cons] at h
    simp [sortByIdDesc, ih h.2,
      insertByIdDesc_eq_append fun q hq => h.1 q (List.mem_reverse.mp hq)]

theorem db_latest_eq (db : DBState) (hs : db.schema = true) (hwf : WF db)
    (n : ℕ) :
    db_latest true n db = .ok ((db.rows.reverse.take n).map Prod.snd) := by
  simp [db_latest, hs, sortByIdDesc_eq_reverse hwf.1]

theorem ingest_body_obj (avail : Bool) (db : DBState)
    (o : List (String × JVal)) :
    (∃ e, ingest_body avail (.decoded (.jobj o)) db = .error e) ∨
    (∃ tsv sv tv hv t h db2 r,
      pyLookup o "ts" = some tsv ∧ pyLookup o "sensor" = some sv ∧
      pyLookup o "temperature" = some tv ∧ pyFloat tv = some t ∧
      pyLookup o "humidity" = some hv ∧ pyFloat hv = some h ∧
      db_insert avail tsv sv t h db = .ok (db2, r) ∧
      ingest_body avail (.decoded (.jobj o)) db = .ok db2) := by
  cases h1 : pyLookup o "ts" with
  | none => exact .inl ⟨.keyError "ts", by simp [ingest_body, h1]⟩
  | some tsv =>
  cases h2 : pyLookup o "sensor" with
  | none => exact .inl ⟨.keyError "sensor", by simp [ingest_body, h1, h2]⟩
  | some sv =>
  cases h3 : pyLookup o "temperature" with
  | none =>
    exact .inl ⟨.keyError "temperature", by simp [ingest_body, h1, h2, h3]⟩
  | some tv =>
  cases h4 : pyFloat tv with
  | none =>
    exact .inl ⟨.coercionError "temperature",
      by simp [ingest_body, h1, h2, h3, h4]⟩
  | some t =>
  cases h5 : pyLookup o "humidity" with
  | none =>
    exact .inl ⟨.keyError "humidity", by simp [ingest_body, h1, h2, h3, h4, h5]⟩
  | some hv =>
  cases h6 : pyFloat hv with
  | none =>
    exact .inl ⟨.coercionError "humidity",
      by simp [ingest_body, h1, h2, h3, h4, h5, h6]⟩
  | some h =>
  cases h7 : db_insert avail tsv sv t h db with
  | error e =>
    exact .inl ⟨.dbExc e, by simp [ingest_body, h1, h2, h3, h4, h5, h6, h7]⟩
  | ok p =>
    refine .inr ⟨tsv, sv, tv, hv, t, h, p.1, p.2, rfl, rfl, rfl, h4, rfl,
      h6, ?_, ?_⟩
    · rw [h7]
    · simp [ingest_body, h1, h2, h3, h4, h5, h6, h7]

theorem on_message_caught_or_ingested (avail : Bool) (w : Wire) (db : DBState) :
    (∃ e, on_message avail w db = (db, .caught e)) ∨
    (on_message avail w db).2 = .ingested := by
  unfold on_message
  cases hb : ingest_body avail w db with
  | ok db2 => exact .inr rfl
  | error e => exact .inl ⟨e, rfl⟩

theorem ingest_body_error_of_malformed (avail : Bool) (db : DBState)
    {w : Wire} (hm : MalformedWire w) :
    ∃ e, ingest_body avail w db = .error e := by
  rcases hm with h | ⟨o, rfl, hcase⟩
  · subst h; exact ⟨.decodeError, rfl⟩
  · rcases ingest_body_obj avail db o with he | hok
    · exact he
    · obtain ⟨tsv, sv, tv, hv, t, h, db2, r, e1, e2, e3, e4, e5, e6, _, _⟩ := hok
      rcases hcase with hc | hc | hc | hc | ⟨tv2, hc1, hc2⟩ | ⟨hv2, hc1, hc2⟩
      · rw [hc] at e1; cases e1
      · rw [hc] at e2; cases e2
      · rw [hc] at e3; cases e3
      · rw [hc] at e5; cases e5
      · rw [hc1] at e3; cases e3; rw [hc2] at e4; cases e4
      · rw [hc1] at e5; cases e5; rw [hc2] at e6; cases e6

theorem on_message_discards_of_malformed (avail : Bool) (db : DBState)
    {w : Wire} (hm : MalformedWire w) :
    (on_message avail w db).1 = db ∧ (on_message avail w db).2 ≠ .ingested := by
  obtain ⟨e, he⟩ := ingest_body_error_of_malformed avail db hm
  constructor <;> simp [on_message, he]

theorem newRows_length (s : ℕ) (inputs : List InRow) :
    (newRows s inputs).length = inputs.length := by
  induction inputs generalizing s with
  | nil => rfl
  | cons i is ih => simp [newRows, ih]

theorem newRows_map_snd (s : ℕ) (inputs : List InRow) :
    (newRows s inputs).map Prod.snd = inputs.map toRow := by
  induction inputs generalizing s with
  | nil => rfl
  | cons i is ih => simp [newRows, ih]

theorem newRows_id_bounds (s : ℕ) (inputs : List InRow) :
    ∀ p ∈ newRows s inputs, s ≤ p.1 ∧ p.1 < s + inputs.length := by
  induction inputs generalizing s with
  | nil => intro p hp; cases hp
  | cons i is ih =>
    intro p hp
    rcases List.mem_cons.mp hp with rfl | hp
    · refine ⟨Nat.le_refl _, ?_⟩
      simp only [List.length_cons]
      omega
    · have := ih (s + 1) p hp
      simp only [List.length_cons]
      omega

theorem newRows_pairwise (s : ℕ) (inputs : List InRow) :
    (newRows s inputs).Pairwise fun p q => p.1 < q.1 := by
  induction inputs generalizing s with
  | nil => exact List.Pairwise.nil
  | cons i is ih =>
    refine List.Pairwise.cons ?_ (ih (s + 1))
    intro q hq
    have := (newRows_id_bounds (s + 1) is q hq).1
    show s < q.1
    omega

theorem db_insertMany_ok (inputs : List InRow) :
    ∀ db : DBState, db.schema = true → (∀ i ∈ inputs, Insertable i) →
      db_insertMany true db inputs =
        .ok ⟨true, db.nextId + inputs.length,
             db.rows ++ newRows db.nextId inputs⟩ := by
  induction inputs with
  | nil =>
    intro db hs _
    obtain ⟨s, ni, rs⟩ := db
    simp only at hs
    subst hs
    simp [db_insertMany, newRows]
  | cons i is ih =>
    intro db hs hins
    have hi := hins i (List.mem_cons_self i is)
    obtain ⟨a, ha⟩ := Option.isSome_iff_exists.mp hi.1
    obtain ⟨b, hb⟩ := Option.isSome_iff_exists.mp hi.2.1
    have hstep := db_insert_ok hs ha hb hi.2.2.1 hi.2.2.2
    simp only [db_insertMany, hstep]
    rw [ih _ (by simp [hs]) (fun j hj => hins j (List.mem_cons_of_mem i hj))]
    simp only [newRows, toRow, ha, hb, Option.getD_some, List.length_cons,
      List.append_assoc, List.singleton_append, Except.ok.injEq,
      DBState.mk.injEq, and_true, true_and]
    omega

theorem WF_append_newRows {db : DBState} (hwf : WF db) (inputs : List InRow) :
    WF ⟨true, db.nextId + inputs.length,
        db.rows ++ newRows db.nextId inputs⟩ := by
  constructor
  · show (db.rows ++ newRows db.nextId inputs).Pairwise fun p q => p.1 < q.1
    rw [List.pairwise_append]
    refine ⟨hwf.1, newRows_pairwise _ _, fun p hp q hq => ?_⟩
    have h1 := hwf.2 p hp
    have h2 := (newRows_id_bounds _ _ q hq).1
    omega
  · intro p hp
    show p.1 < db.nextId + inputs.length
    rcases List.mem_append.mp hp with hp | hp
    · have := hwf.2 p hp; omega
    · exact (newRows_id_bounds _ _ p hp).2

/-! ## Claims -/

/-- Claim C2: for any sequence of successful appends to a well-formed log,
the `sequence_id` values assigned to the new records are strictly increasing
in append order, and `latest` over the number of appended records returns
exactly those records in the reverse of append order (newest first). -/
theorem claim_C2 (db : DBState) (inputs : List InRow)
    (hs : db.schema = true) (hwf : WF db)
    (hins : ∀ i ∈ inputs, Insertable i) :
    db_insertMany true db inputs =
      .ok ⟨true, db.nextId + inputs.length,
           db.rows ++ newRows db.nextId inputs⟩ ∧
    (newRows db.nextId inputs).Pairwise (fun p q => p.1 < q.1) ∧
    db_latest true inputs.length
        ⟨true, db.nextId + inputs.length,
         db.rows ++ newRows db.nextId inputs⟩ =
      .ok ((inputs.map toRow).reverse) := by
  refine ⟨db_insertMany_ok inputs db hs hins, newRows_pairwise _ _, ?_⟩
  rw [db_latest_eq _ rfl (WF_append_newRows hwf inputs)]
  show Except.ok
      (((db.rows ++ newRows db.nextId inputs).reverse.take
        inputs.length).map Prod.snd) = _
  rw [List.reverse_append, List.take_left' (by simp [newRows_length]),
    List.map_reverse, newRows_map_snd]

/-- Witness for C2: two concrete appends to an empty initialized log get ids
1 and 2, and `latest 2` returns the two rows newest first. -/
theorem claim_C2_witness :
    db_insertMany true ⟨true, 1, []⟩
        [⟨.jstr "t1", .jstr "s1", .fin 20, .fin 30⟩,
         ⟨.jstr "t2", .jstr "s2", .fin 21, .fin 31⟩] =
      .ok ⟨true, 3, [(1, ⟨"t1", "s1", .fin 20, .fin 30⟩),
                     (2, ⟨"t2", "s2", .fin 21, .fin 31⟩)]⟩ ∧
    ([(1, (⟨"t1", "s1", .fin 20, .fin 30⟩ : Row)),
      (2, ⟨"t2", "s2", .fin 21, .fin 31⟩)] : List (ℕ × Row)).Pairwise
        (fun p q => p.1 < q.1) ∧
    db_latest true 2 ⟨true, 3, [(1, ⟨"t1", "s1", .fin 20, .fin 30⟩),
                                (2, ⟨"t2", "s2", .fin 21, .fin 31⟩)]⟩ =
      .ok [⟨"t2", "s2", .fin 21, .fin 31⟩, ⟨"t1", "s1", .fin 20, .fin 30⟩] := by
  have h := claim_C2 ⟨true, 1, []⟩
    [⟨.jstr "t1", .jstr "s1", .fin 20, .fin 30⟩,
     ⟨.jstr "t2", .jstr "s2", .fin 21, .fin 31⟩] rfl (by decide) (by decide)
  exact ⟨h.1, h.2.1, h.2.2⟩

/-- Claim C3: on a well-formed log, `latest n` returns the projections of
the `min n k` most recently inserted rows newest-first: the empty log gives
the empty sequence, and a log with `k < n` rows gives exactly `k` records. -/
theorem claim_C3 (n : ℕ) (db : DBState) (hs : db.schema = true)
    (hwf : WF db) :
    db_latest true n db = .ok ((db.rows.reverse.take n).map Prod.snd) ∧
    ((db.rows.reverse.take n).map Prod.snd).length = min n db.rows.length ∧
    (db.rows = [] → db_latest true n db = .ok []) := by
  refine ⟨db_latest_eq db hs hwf n, ?_, ?_⟩
  · simp
  · intro he
    rw [db_latest_eq db hs hwf n, he]
    simp

/-- Witness for C3: `latest 5` on a two-row log returns both rows newest
first, and on an empty log returns the empty sequence. -/
theorem claim_C3_witness :
    db_latest true 5 ⟨true, 3, [(1, ⟨"a", "s", .fin 1, .fin 2⟩),
                                (2, ⟨"b", "s", .fin 3, .fin 4⟩)]⟩ =
      .ok [⟨"b", "s", .fin 3, .fin 4⟩, ⟨"a", "s", .fin 1, .fin 2⟩] ∧
    db_latest true 5 ⟨true, 1, []⟩ = .ok [] := by
  have h := claim_C3 5 ⟨true, 3, [(1, ⟨"a", "s", .fin 1, .fin 2⟩),
    (2, ⟨"b", "s", .fin 3, .fin 4⟩)]⟩ rfl (by decide)
  have h0 := claim_C3 5 ⟨true, 1, []⟩ rfl (by decide)
  exact ⟨h.1, h0.2.2 rfl⟩

theorem WF_append_one {db : DBState} (hwf : WF db) (r : Row) :
    WF { db with
          nextId := db.nextId + 1,
          rows := db.rows ++ [(db.nextId, r)] } := by
  constructor
  · show (db.rows ++ [(db.nextId, r)]).Pairwise fun p q => p.1 < q.1
    rw [List.pairwise_append]
    refine ⟨hwf.1, by simp, fun p hp q hq => ?_⟩
    have h1 := hwf.2 p hp
    have h2 : q = (db.nextId, r) := by simpa using hq
    rw [h2]
    exact h1
  · intro p hp
    show p.1 < db.nextId + 1
    rcases List.mem_append.mp hp with hp | hp
    · have := hwf.2 p hp; omega
    · have h2 : p = (db.nextId, r) := by simpa using hp
      rw [h2]
      omega

/-- Claim C1 (amended): for every valid wire-format message — a decoded
JSON object carrying string `ts` and `sensor` values and
`temperature`/`humidity` values that `float()` coerces to non-NaN results —
`on_message` ingests exactly one record and `db_latest 1` afterwards
returns that record: `ts` and `sensor` equal the message's fields and
`temperature`/`humidity` are the coerced values.  The non-NaN proviso is
the amendment: a value coercing to NaN binds as NULL and the NOT NULL
constraint rejects the insert (see the counterexample). -/
theorem claim_C1 (db : DBState) (o : List (String × JVal)) (a b : String)
    (tv hv : JVal) (t h : PyNum)
    (hs : db.schema = true) (hwf : WF db)
    (h1 : pyLookup o "ts" = some (.jstr a))
    (h2 : pyLookup o "sensor" = some (.jstr b))
    (h3 : pyLookup o "temperature" = some tv) (h4 : pyFloat tv = some t)
    (h5 : pyLookup o "humidity" = some hv) (h6 : pyFloat hv = some h)
    (htn : t ≠ PyNum.nan) (hhn : h ≠ PyNum.nan) :
    on_message true (.decoded (.jobj o)) db =
      ({ db with
          nextId := db.nextId + 1,
          rows := db.rows ++ [(db.nextId, ⟨a, b, t, h⟩)] }, .ingested) ∧
    db_latest true 1
      { db with
          nextId := db.nextId + 1,
          rows := db.rows ++ [(db.nextId, ⟨a, b, t, h⟩)] } =
      .ok [⟨a, b, t, h⟩] := by
  have hins := db_insert_ok hs (show storedText (.jstr a) = some a from rfl)
    (show storedText (.jstr b) = some b from rfl) htn hhn
  constructor
  · simp [on_message, ingest_body, h1, h2, h3, h4, h5, h6, hins]
  · rw [db_latest_eq
      { db with
          nextId := db.nextId + 1,
          rows := db.rows ++ [(db.nextId, ⟨a, b, t, h⟩)] }
      hs (WF_append_one hwf ⟨a, b, t, h⟩) 1]
    simp

/-- Witness for C1 at a concrete valid message sent to the empty
initialized log. -/
theorem claim_C1_witness :
    on_message true (.decoded (.jobj
      [("ts", .jstr "2024-01-01T00:00:00"), ("sensor", .jstr "sensor-001"),
       ("temperature", .jnum (49/2)), ("humidity", .jnum 55)]))
      ⟨true, 1, []⟩ =
      (⟨true, 2, [(1, ⟨"2024-01-01T00:00:00", "sensor-001",
        .fin (49/2), .fin 55⟩)]⟩, .ingested) ∧
    db_latest true 1 ⟨true, 2, [(1, ⟨"2024-01-01T00:00:00", "sensor-001",
        .fin (49/2), .fin 55⟩)]⟩ =
      .ok [⟨"2024-01-01T00:00:00", "sensor-001", .fin (49/2), .fin 55⟩] := by
  exact claim_C1 ⟨true, 1, []⟩
    [("ts", .jstr "2024-01-01T00:00:00"), ("sensor", .jstr "sensor-001"),
     ("temperature", .jnum (49/2)), ("humidity", .jnum 55)]
    "2024-01-01T00:00:00" "sensor-001" (.jnum (49/2)) (.jnum 55)
    (.fin (49/2)) (.fin 55) rfl (by decide) rfl rfl rfl rfl rfl rfl
    (by decide) (by decide)

/-- Counterexample to C1 as stated: the message below is valid in the
claim's sense — UTF-8 JSON, all four keys present, every value of coercible
type (`float("nan")` succeeds) — yet `on_message` appends nothing: the NaN
temperature binds as NULL, the NOT NULL constraint raises IntegrityError
(caught and discarded), and `latest 1` then returns no record at all
instead of a record with the message's fields. -/
theorem claim_C1_counterexample :
    pyFloat (.jstr "nan") = some PyNum.nan ∧
    on_message true (.decoded (.jobj
      [("ts", .jstr "2024-01-01T00:00:00"), ("sensor", .jstr "sensor-001"),
       ("temperature", .jstr "nan"), ("humidity", .jnum 55)]))
      ⟨true, 1, []⟩ =
      (⟨true, 1, []⟩, .caught (.dbExc .integrityError)) ∧
    db_latest true 1 ⟨true, 1, []⟩ = .ok [] :=
  ⟨by decide, by decide, by decide⟩

/-- Claim C4: for every malformed input — undecodable bytes, a missing
required key, or a `temperature`/`humidity` value `float()` cannot coerce —
`on_message` raises nothing past its boundary (the exception is caught and
a non-ingested outcome returned), the state is unchanged and in particular
the log's record count is unchanged. -/
theorem claim_C4 (avail : Bool) (w : Wire) (db : DBState)
    (hm : MalformedWire w) :
    (on_message avail w db).1 = db ∧
    (on_message avail w db).2 ≠ .ingested ∧
    ((on_message avail w db).1).rows.length = db.rows.length := by
  obtain ⟨e, he⟩ :=
    ingest_body_error_of_malformed avail db hm
  refine ⟨?_, ?_, ?_⟩ <;> simp [on_message, he]

/-- Witness for C4 at the spec's own malformed example, the payload
carrying only a `sensor` key. -/
theorem claim_C4_witness :
    (on_message true (.decoded (.jobj [("sensor", .jstr "x")]))
        ⟨true, 1, []⟩).1 = ⟨true, 1, []⟩ ∧
    (on_message true (.decoded (.jobj [("sensor", .jstr "x")]))
        ⟨true, 1, []⟩).2 ≠ .ingested ∧
    ((on_message true (.decoded (.jobj [("sensor", .jstr "x")]))
        ⟨true, 1, []⟩).1).rows.length =
      (⟨true, 1, []⟩ : DBState).rows.length :=
  claim_C4 true _ ⟨true, 1, []⟩ (.inr ⟨[("sensor", .jstr "x")], rfl, .inl rfl⟩)

/-- Claim C5 (amended): in the Ingestor no exception crosses the
per-message boundary — `on_message` either ingests or returns with the
exception caught and the database unchanged.  In the Live Mirror, however,
per-tick failures are NOT caught: the poll loop handles only
KeyboardInterrupt around the whole loop, so a StoreUnavailable raised by
the `db_latest(1)` read mid-run escapes the tick (and would terminate the
loop) instead of being logged and skipped. -/
theorem claim_C5 :
    (∀ (avail : Bool) (w : Wire) (db : DBState),
      (on_message avail w db).2 = .ingested ∨
      ((on_message avail w db).1 = db ∧
        (on_message avail w db).2 ≠ .ingested)) ∧
    (∀ (db : DBState) (vars : MirrorVars),
      run_opcua_tick false db vars = .error .storeUnavailable) := by
  constructor
  · intro avail w db
    rcases on_message_caught_or_ingested avail w db with ⟨e, he⟩ | hi
    · right
      rw [he]
      exact ⟨rfl, by simp⟩
    · left
      exact hi
  · intro db vars
    rfl

/-- Counterexample to C5 as stated: with storage unavailable, one Live
Mirror poll tick fails and the StoreUnavailable error is not caught — it
crosses the tick boundary, so the loop would terminate rather than continue
with the next tick. -/
theorem claim_C5_counterexample :
    run_opcua_tick false ⟨true, 1, []⟩ initVars =
      .error .storeUnavailable := by
  decide

/-- Claim C6 (amended): `db_insert` fails with StoreUnavailable when the
storage cannot be opened or written; otherwise the record is committed
before control returns (the returned state carries the appended row under
the id `nextId`) — but the function's return value is None, not the
assigned sequence id. -/
theorem claim_C6 (db : DBState) (ts sensor : JVal) (a b : String)
    (t h : PyNum) (hs : db.schema = true)
    (hta : storedText ts = some a) (hsb : storedText sensor = some b)
    (htn : t ≠ PyNum.nan) (hhn : h ≠ PyNum.nan) :
    db_insert false ts sensor t h db = .error .storeUnavailable ∧
    db_insert true ts sensor t h db =
      .ok ({ db with
              nextId := db.nextId + 1,
              rows := db.rows ++ [(db.nextId, ⟨a, b, t, h⟩)] }, none) :=
  ⟨rfl, db_insert_ok hs hta hsb htn hhn⟩

/-- Witness for C6 at a concrete insert into the empty initialized log. -/
theorem claim_C6_witness :
    db_insert false (.jstr "x") (.jstr "y") (.fin 1) (.fin 2) ⟨true, 1, []⟩ =
      .error .storeUnavailable ∧
    db_insert true (.jstr "x") (.jstr "y") (.fin 1) (.fin 2) ⟨true, 1, []⟩ =
      .ok (⟨true, 2, [(1, ⟨"x", "y", .fin 1, .fin 2⟩)]⟩, none) :=
  claim_C6 ⟨true, 1, []⟩ (.jstr "x") (.jstr "y") "x" "y" (.fin 1) (.fin 2)
    rfl rfl rfl (by decide) (by decide)

/-- Counterexample to C6 as stated: the record inserted into the empty
initialized log is assigned sequence id 1, but the value `db_insert`
returns to its caller is None — the sequence id is not returned. -/
theorem claim_C6_counterexample :
    db_insert true (.jstr "x") (.jstr "y") (.fin 1) (.fin 2) ⟨true, 1, []⟩ =
      .ok (⟨true, 2, [(1, ⟨"x", "y", .fin 1, .fin 2⟩)]⟩, none) ∧
    (none : Option ℕ) ≠ some 1 :=
  ⟨by decide, by decide⟩

/-- Claim C8: `db_init` (`CREATE TABLE IF NOT EXISTS`) is idempotent —
repeating it reproduces the same state with no error, and no call changes
the stored records or the id counter. -/
theorem claim_C8 (db : DBState) :
    db_init true db = .ok (dbWithSchema db) ∧
    db_init true (dbWithSchema db) = .ok (dbWithSchema db) ∧
    (dbWithSchema db).rows = db.rows ∧
    (dbWithSchema db).nextId = db.nextId :=
  ⟨rfl, rfl, rfl, rfl⟩

/-- Claim C9: a Live Mirror poll tick with available storage never errors
on an empty read — when `latest 1` returns no rows the three live variables
keep their previous values — and when `latest 1` returns a record the tick
writes that record's temperature, humidity and sensor into the three
variables. -/
theorem claim_C9 (db : DBState) (vars : MirrorVars) :
    (db_latest true 1 db = .ok [] → run_opcua_tick true db vars = .ok vars) ∧
    (∀ r l, db_latest true 1 db = .ok (r :: l) →
      run_opcua_tick true db vars =
        .ok ⟨r.temperature, r.humidity, r.sensor⟩) := by
  constructor
  · intro he
    simp [run_opcua_tick, he]
  · intro r l he
    simp [run_opcua_tick, he]

/-- Witness for C9: a tick on the empty log keeps the initial variable
values, and a tick on a one-row log copies that row's fields. -/
theorem claim_C9_witness :
    run_opcua_tick true ⟨true, 1, []⟩ initVars = .ok initVars ∧
    run_opcua_tick true ⟨true, 2, [(1, ⟨"t", "s", .fin 20, .fin 30⟩)]⟩
        initVars = .ok ⟨.fin 20, .fin 30, "s"⟩ :=
  ⟨(claim_C9 ⟨true, 1, []⟩ initVars).1 (by decide),
   (claim_C9 ⟨true, 2, [(1, ⟨"t", "s", .fin 20, .fin 30⟩)]⟩ initVars).2
     ⟨"t", "s", .fin 20, .fin 30⟩ [] (by decide)⟩

/-- Claim C7 (amended): a payload in which any of the four required keys
(`ts`, `sensor`, `temperature`, `humidity`) is absent is discarded
(KeyError caught) with the log unchanged, and so is a payload whose
`temperature` or `humidity` value `float()` cannot coerce — but a key
mistyped as a *numeric string* is not treated as malformed: `float`
coerces it and the message is ingested, as the third conjunct shows for
`temperature` carried as the string "24.5". -/
theorem claim_C7 :
    (∀ (avail : Bool) (db : DBState) (o : List (String × JVal)) (k : String),
      k ∈ ["ts", "sensor", "temperature", "humidity"] →
      pyLookup o k = none →
        (on_message avail (.decoded (.jobj o)) db).1 = db ∧
        (on_message avail (.decoded (.jobj o)) db).2 ≠ .ingested) ∧
    (∀ (avail : Bool) (db : DBState) (o : List (String × JVal)) (k : String)
      (v : JVal),
      k ∈ ["temperature", "humidity"] →
      pyLookup o k = some v → pyFloat v = none →
        (on_message avail (.decoded (.jobj o)) db).1 = db ∧
        (on_message avail (.decoded (.jobj o)) db).2 ≠ .ingested) ∧
    on_message true (.decoded (.jobj
      [("ts", .jstr "t"), ("sensor", .jstr "s"),
       ("temperature", .jstr "24.5"), ("humidity", .jstr "55")]))
      ⟨true, 1, []⟩ =
      (⟨true, 2, [(1, ⟨"t", "s", .fin (49/2), .fin 55⟩)]⟩, .ingested) := by
  refine ⟨?_, ?_, by decide⟩
  · intro avail db o k hk hnone
    simp only [List.mem_cons, List.not_mem_nil, or_false] at hk
    rcases hk with rfl | rfl | rfl | rfl
    · exact on_message_discards_of_malformed avail db
        (.inr ⟨o, rfl, .inl hnone⟩)
    · exact on_message_discards_of_malformed avail db
        (.inr ⟨o, rfl, .inr (.inl hnone)⟩)
    · exact on_message_discards_of_malformed avail db
        (.inr ⟨o, rfl, .inr (.inr (.inl hnone))⟩)
    · exact on_message_discards_of_malformed avail db
        (.inr ⟨o, rfl, .inr (.inr (.inr (.inl hnone)))⟩)
  · intro avail db o k v hk hsome hc
    simp only [List.mem_cons, List.not_mem_nil, or_false] at hk
    rcases hk with rfl | rfl
    · exact on_message_discards_of_malformed avail db
        (.inr ⟨o, rfl, .inr (.inr (.inr (.inr (.inl ⟨v, hsome, hc⟩))))⟩)
    · exact on_message_discards_of_malformed avail db
        (.inr ⟨o, rfl, .inr (.inr (.inr (.inr (.inr ⟨v, hsome, hc⟩))))⟩)

/-- Witness for C7: a payload with no `sensor` key leaves the log
unchanged, and a payload whose `humidity` is null (which `float()` cannot
coerce) is not ingested. -/
theorem claim_C7_witness :
    (on_message true (.decoded (.jobj
      [("ts", .jstr "t"), ("temperature", .jnum 21), ("humidity", .jnum 55)]))
      ⟨true, 1, []⟩).1 = ⟨true, 1, []⟩ ∧
    (on_message true (.decoded (.jobj
      [("ts", .jstr "t"), ("sensor", .jstr "s"),
       ("temperature", .jnum 21), ("humidity", .jnull)]))
      ⟨true, 1, []⟩).2 ≠ .ingested :=
  ⟨(claim_C7.1 true ⟨true, 1, []⟩
      [("ts", .jstr "t"), ("temperature", .jnum 21), ("humidity", .jnum 55)]
      "sensor" (by decide) rfl).1,
   (claim_C7.2.1 true ⟨true, 1, []⟩
      [("ts", .jstr "t"), ("sensor", .jstr "s"),
       ("temperature", .jnum 21), ("humidity", .jnull)]
      "humidity" .jnull (by decide) rfl rfl).2⟩

/-- Counterexample to C7 as stated: `temperature` carried as the numeric
string "24.5" — a mistyped key per the wire format — is not classified as
MalformedMessage: the message is ingested and one record is appended. -/
theorem claim_C7_counterexample :
    (on_message true (.decoded (.jobj
      [("ts", .jstr "t"), ("sensor", .jstr "s"),
       ("temperature", .jstr "24.5"), ("humidity", .jstr "55")]))
      ⟨true, 1, []⟩).2 = .ingested ∧
    ((on_message true (.decoded (.jobj
      [("ts", .jstr "t"), ("sensor", .jstr "s"),
       ("temperature", .jstr "24.5"), ("humidity", .jstr "55")]))
      ⟨true, 1, []⟩).1).rows.length = 1 :=
  ⟨by decide, by decide⟩

/-- Claim C10 (amended): the Ingestor accepts any decoded JSON mapping that
carries the four required keys with insertable values — `ts`/`sensor`
storable under TEXT affinity and `temperature`/`humidity` coercing to
non-NaN floats — even when the mapping carries additional keys: the extras
are ignored and exactly one record holding only the four fields is
appended.  The non-NaN proviso is the amendment forced by the NOT NULL
constraint (see the counterexample). -/
theorem claim_C10 (db : DBState) (o : List (String × JVal))
    (tsv sv tv hv : JVal) (a b : String) (t h : PyNum)
    (hs : db.schema = true)
    (h1 : pyLookup o "ts" = some tsv) (h2 : pyLookup o "sensor" = some sv)
    (h3 : pyLookup o "temperature" = some tv) (h4 : pyFloat tv = some t)
    (h5 : pyLookup o "humidity" = some hv) (h6 : pyFloat hv = some h)
    (hta : storedText tsv = some a) (hsb : storedText sv = some b)
    (htn : t ≠ PyNum.nan) (hhn : h ≠ PyNum.nan) :
    on_message true (.decoded (.jobj o)) db =
      ({ db with
          nextId := db.nextId + 1,
          rows := db.rows ++ [(db.nextId, ⟨a, b, t, h⟩)] }, .ingested) := by
  have hins := db_insert_ok hs hta hsb htn hhn
  simp [on_message, ingest_body, h1, h2, h3, h4, h5, h6, hins]

/-- Witness for C10 at a payload carrying two extra keys beyond the
required four. -/
theorem claim_C10_witness :
    on_message true (.decoded (.jobj
      [("ts", .jstr "t"), ("sensor", .jstr "s"), ("temperature", .jnum 21),
       ("humidity", .jnum 55), ("firmware", .jstr "v2"),
       ("unit", .jstr "C")])) ⟨true, 1, []⟩ =
      (⟨true, 2, [(1, ⟨"t", "s", .fin 21, .fin 55⟩)]⟩, .ingested) :=
  claim_C10 ⟨true, 1, []⟩
    [("ts", .jstr "t"), ("sensor", .jstr "s"), ("temperature", .jnum 21),
     ("humidity", .jnum 55), ("firmware", .jstr "v2"), ("unit", .jstr "C")]
    (.jstr "t") (.jstr "s") (.jnum 21) (.jnum 55) "t" "s" (.fin 21) (.fin 55)
    rfl rfl rfl rfl rfl rfl rfl rfl rfl (by decide) (by decide)

/-- Counterexample to C10 as stated: a mapping with the four required keys,
all of coercible type (`float("nan")` succeeds for `humidity`), and one
extra key — yet no record is appended: the NaN humidity binds as NULL and
the NOT NULL constraint rejects the insert, which the Ingestor catches and
discards. -/
theorem claim_C10_counterexample :
    pyFloat (.jstr "nan") = some PyNum.nan ∧
    on_message true (.decoded (.jobj
      [("ts", .jstr "t"), ("sensor", .jstr "s"), ("temperature", .jnum 21),
       ("humidity", .jstr "nan"), ("extra", .jnum 1)])) ⟨true, 1, []⟩ =
      (⟨true, 1, []⟩, .caught (.dbExc .integrityError)) :=
  ⟨by decide, by decide⟩
